import Mathlib

/-!
# Verification of the Gemini chat app (`src/gemini_chat_app/app.py`)

A shallow embedding of the single-page chat program: the conversation
history (a list of turns), the construction of the current user turn from
the form inputs, the wire payload, and the request/response cycle with its
five-way failure classification and rollback discipline.

The network is modelled as an oracle input (`NetResult`): what the single
HTTP POST would produce.  Everything else is translated directly from the
Python source.
-/

namespace GeminiChatApp

/-- A role tag on a conversation turn, mirroring the `"role"` field. -/
inductive Role where
  | user
  | model
deriving DecidableEq, Repr

/-- A content part as stored in `st.session_state.messages`: either a
`{"text": ...}` dict or an `{"inlineData": {"mimeType": ..., "data": ...}}`
dict whose `data` field is already base64 text. -/
inductive ContentPart where
  | text (s : String)
  | inlineData (mimeType : String) (data : String)
deriving DecidableEq, Repr

/-- One element of `st.session_state.messages`:
`{"role": ..., "parts": [...]}`. -/
structure Turn where
  role : Role
  parts : List ContentPart
deriving DecidableEq, Repr

/-- The uploaded file, as the form yields it: a declared mime type
(`uploaded_file.type`) and the raw bytes (`uploaded_file.getvalue()`),
each byte a `Nat` below 256. -/
structure ImageFile where
  mime : String
  bytes : List Nat
deriving DecidableEq, Repr

/-- The standard base64 alphabet used by `base64.b64encode`. -/
def base64Alphabet : List Char :=
  "ABCDEFGHIJKLMNOPQRSTUVWXYZabcdefghijklmnopqrstuvwxyz0123456789+/".toList

/-- Character of the base64 alphabet at index `i` (for `i < 64`). -/
def b64Char (i : Nat) : Char :=
  base64Alphabet.getD i 'A'

/-- Standard base64 of a byte list, processed in 3-byte groups with `=`
padding; models `base64.b64encode(image_bytes)`. -/
def b64Chunks : List Nat → List Char
  | [] => []
  | [b0] =>
    let n := (b0 % 256) * 65536
    [b64Char (n / 262144 % 64), b64Char (n / 4096 % 64), '=', '=']
  | [b0, b1] =>
    let n := (b0 % 256) * 65536 + (b1 % 256) * 256
    [b64Char (n / 262144 % 64), b64Char (n / 4096 % 64), b64Char (n / 64 % 64), '=']
  | b0 :: b1 :: b2 :: rest =>
    let n := (b0 % 256) * 65536 + (b1 % 256) * 256 + b2 % 256
    b64Char (n / 262144 % 64) :: b64Char (n / 4096 % 64) ::
      b64Char (n / 64 % 64) :: b64Char (n % 64) :: b64Chunks rest

/-- `base64.b64encode(image_bytes).decode("utf-8")` as a string. -/
def b64encode (bs : List Nat) : String :=
  String.mk (b64Chunks bs)

/-- One part of the content of a candidate in the API response body: a
dict that either carries a `"text"` field or does not. -/
inductive RespPart where
  | withText (s : String)
  | noText
deriving DecidableEq, Repr

/-- The `"content"` object of a candidate; `parts = none` models a dict
with no `"parts"` key (indexing it raises `KeyError`). -/
structure ContentObj where
  parts : Option (List RespPart)
deriving DecidableEq, Repr

/-- One candidate of the response body; `content = none` models a dict
with no `"content"` key. -/
structure Candidate where
  content : Option ContentObj
deriving DecidableEq, Repr

/-- The parsed JSON response body; `candidates = none` models a body with
no `"candidates"` key (both `none` and `some []` fail the
`"candidates" in result and result["candidates"]` test). -/
structure RespBody where
  candidates : Option (List Candidate)
deriving DecidableEq, Repr

/-- The raw response body: either text that parses as JSON (carrying the
parsed form) or text that does not, in which case `response.json()`
raises. -/
inductive BodyData where
  | json (r : RespBody)
  | notJson (raw : String)
deriving DecidableEq, Repr

/-- What the single `requests.post` call produces: one of the two
`requests` exception kinds the code names, a response with a status code
and a body, or any other exception (caught by `except Exception`). -/
inductive NetResult where
  | timeout
  | connectionError
  | response (status : Nat) (body : BodyData)
  | otherError (detail : String)
deriving DecidableEq, Repr

/-- `response.raise_for_status()` raises `HTTPError` exactly for client
and server error codes. -/
def isHttpErrorStatus (status : Nat) : Bool :=
  decide (400 ≤ status) && decide (status < 600)

/-- The failure classification of one request/response cycle, with the
five classes the spec names. -/
inductive FailureKind where
  | timeout
  | connectionFailure
  | httpError (statusCode : Nat) (body : BodyData)
  | malformedResponse (body : RespBody)
  | unexpected (detail : String)
deriving DecidableEq, Repr

/-- The pre-network rejection reasons. -/
inductive ValidationError where
  | missingCredential
  | emptyInput
  | unsupportedImageFormat
deriving DecidableEq, Repr

/-- Outcome of one submission: rejected before the network call, a
committed reply, or a classified failure. -/
inductive Outcome where
  | rejected (e : ValidationError)
  | success (replyText : String)
  | failure (k : FailureKind)
deriving DecidableEq, Repr

/-- The wire payload: `{"contents": st.session_state.messages}`. -/
structure Payload where
  contents : List Turn
deriving DecidableEq, Repr

/-- The observable result of running the submission script once: the
history afterwards, the reported outcome, whether the network was
reached, the payload sent (if any), and whether the script died on an
uncaught exception (in which case the lines after the raise never ran). -/
structure CycleResult where
  messages : List Turn
  outcome : Outcome
  networkCalled : Bool
  sentPayload : Option Payload
  crashed : Bool
deriving DecidableEq, Repr

/-- `"".join([part["text"] for part in reply_parts if "text" in part])`. -/
def joinTexts (ps : List RespPart) : String :=
  String.join (ps.filterMap fun p =>
    match p with
    | .withText s => some s
    | .noText => none)

/-- The mime types the code accepts:
`supported_mime_types = ["image/jpeg", "image/png", "image/webp"]`. -/
def supportedMimeTypes : List String :=
  ["image/jpeg", "image/png", "image/webp"]

/-- The try/except around `requests.post`, entered with the user turn
already appended: builds the payload from the whole history, dispatches
on the network oracle, commits the model turn on success, and pops the
user turn in every handler — except that the `HTTPError` handler calls
`e.response.json()` before the pop, so a non-JSON error body raises out
of the handler and the pop never runs. -/
def apiCycle (messages : List Turn) (currentUserParts : List ContentPart)
    (net : NetResult) : CycleResult :=
  let msgs1 := messages ++ [{ role := .user, parts := currentUserParts }]
  let payload : Payload := { contents := msgs1 }
  match net with
  | .timeout =>
    { messages := msgs1.dropLast, outcome := .failure .timeout,
      networkCalled := true, sentPayload := some payload, crashed := false }
  | .connectionError =>
    { messages := msgs1.dropLast, outcome := .failure .connectionFailure,
      networkCalled := true, sentPayload := some payload, crashed := false }
  | .otherError detail =>
    { messages := msgs1.dropLast, outcome := .failure (.unexpected detail),
      networkCalled := true, sentPayload := some payload, crashed := false }
  | .response status body =>
    if isHttpErrorStatus status then
      match body with
      | .json _ =>
        { messages := msgs1.dropLast, outcome := .failure (.httpError status body),
          networkCalled := true, sentPayload := some payload, crashed := false }
      | .notJson _ =>
        { messages := msgs1, outcome := .failure (.httpError status body),
          networkCalled := true, sentPayload := some payload, crashed := true }
    else
      match body with
      | .notJson raw =>
        { messages := msgs1.dropLast,
          outcome := .failure (.unexpected ("JSONDecodeError: " ++ raw)),
          networkCalled := true, sentPayload := some payload, crashed := false }
      | .json r =>
        match r.candidates with
        | some (c :: _) =>
          match c.content with
          | some co =>
            match co.parts with
            | some ps =>
              let replyText := joinTexts ps
              { messages := msgs1 ++ [{ role := .model, parts := [.text replyText] }],
                outcome := .success replyText,
                networkCalled := true, sentPayload := some payload, crashed := false }
            | none =>
              { messages := msgs1.dropLast,
                outcome := .failure (.unexpected "KeyError: parts"),
                networkCalled := true, sentPayload := some payload, crashed := false }
          | none =>
            { messages := msgs1.dropLast,
              outcome := .failure (.unexpected "KeyError: content"),
              networkCalled := true, sentPayload := some payload, crashed := false }
        | some [] =>
          { messages := msgs1.dropLast, outcome := .failure (.malformedResponse r),
            networkCalled := true, sentPayload := some payload, crashed := false }
        | none =>
          { messages := msgs1.dropLast, outcome := .failure (.malformedResponse r),
            networkCalled := true, sentPayload := some payload, crashed := false }

/-- The whole `if submit_button:` block: validation of credential and
inputs, construction of `current_user_parts` (text part first, then the
image part with base64 data, after the mime check), then the append of
the user turn and the API cycle. -/
def runSubmission (messages : List Turn) (apiKey : String)
    (currentTextPrompt : String) (uploadedFile : Option ImageFile)
    (net : NetResult) : CycleResult :=
  if apiKey = "" then
    { messages := messages, outcome := .rejected .missingCredential,
      networkCalled := false, sentPayload := none, crashed := false }
  else if currentTextPrompt = "" ∧ uploadedFile = none then
    { messages := messages, outcome := .rejected .emptyInput,
      networkCalled := false, sentPayload := none, crashed := false }
  else
    let textParts : List ContentPart :=
      if currentTextPrompt = "" then [] else [.text currentTextPrompt]
    match uploadedFile with
    | none => apiCycle messages textParts net
    | some img =>
      if img.mime ∈ supportedMimeTypes then
        apiCycle messages
          (textParts ++ [.inlineData img.mime (b64encode img.bytes)]) net
      else
        { messages := messages, outcome := .rejected .unsupportedImageFormat,
          networkCalled := false, sentPayload := none, crashed := false }

/-- The parts the submission builds for the current user turn, given that
the mime check passes: text part first (when the prompt is non-empty),
then the inline image part (when an image is present). -/
def expectedUserParts (prompt : String) (img : Option ImageFile) : List ContentPart :=
  (if prompt = "" then [] else [.text prompt]) ++
    (match img with
     | none => []
     | some i => [.inlineData i.mime (b64encode i.bytes)])

/-- Discriminator for the `Timeout` class. -/
def isTimeoutK : FailureKind → Bool
  | .timeout => true
  | _ => false

/-- Discriminator for the `ConnectionFailure` class. -/
def isConnectionK : FailureKind → Bool
  | .connectionFailure => true
  | _ => false

/-- Discriminator for the `HttpError` class. -/
def isHttpK : FailureKind → Bool
  | .httpError _ _ => true
  | _ => false

/-- Discriminator for the `MalformedResponse` class. -/
def isMalformedK : FailureKind → Bool
  | .malformedResponse _ => true
  | _ => false

/-- Discriminator for the `Unexpected` class. -/
def isUnexpectedK : FailureKind → Bool
  | .unexpected _ => true
  | _ => false

/-- A failure kind lies in exactly one of the five spec classes. -/
def classifiedExactlyOnce (k : FailureKind) : Prop :=
  (isTimeoutK k).toNat + (isConnectionK k).toNat + (isHttpK k).toNat +
    (isMalformedK k).toNat + (isUnexpectedK k).toNat = 1

/-- Every turn of the list has a non-empty parts sequence. -/
def allPartsNonempty (l : List Turn) : Prop :=
  ∀ t ∈ l, t.parts ≠ []

instance decAllPartsNonempty (l : List Turn) : Decidable (allPartsNonempty l) :=
  inferInstanceAs (Decidable (∀ t ∈ l, t.parts ≠ []))

/-- The history has even length, with a user turn at every even index and
a model turn at every odd index. -/
def alternatingHistory (l : List Turn) : Prop :=
  l.length % 2 = 0 ∧
  ∀ i, i < l.length →
    (l.map Turn.role)[i]? = some (if i % 2 = 0 then Role.user else Role.model)

instance decAlternatingHistory (l : List Turn) : Decidable (alternatingHistory l) :=
  inferInstanceAs (Decidable (l.length % 2 = 0 ∧
    ∀ i, i < l.length →
      (l.map Turn.role)[i]? = some (if i % 2 = 0 then Role.user else Role.model)))

/-! ## General lemmas about the cycle -/

/-- The payload sent by the API cycle is the whole history with the
current user turn at the end. -/
theorem apiCycle_sentPayload (messages : List Turn) (parts : List ContentPart)
    (net : NetResult) :
    (apiCycle messages parts net).sentPayload =
      some ⟨messages ++ [{ role := .user, parts := parts }]⟩ := by
  cases net <;> simp only [apiCycle] <;> (repeat' split) <;> rfl

/-- The API cycle always reaches the network. -/
theorem apiCycle_networkCalled (messages : List Turn) (parts : List ContentPart)
    (net : NetResult) :
    (apiCycle messages parts net).networkCalled = true := by
  cases net <;> simp only [apiCycle] <;> (repeat' split) <;> rfl

/-- After the API cycle the history is the old one, the old one with the
user turn retained, or the old one with the user turn and a model turn. -/
theorem apiCycle_messages_cases (messages : List Turn) (parts : List ContentPart)
    (net : NetResult) :
    (apiCycle messages parts net).messages = messages ∨
    (apiCycle messages parts net).messages = messages ++ [{ role := .user, parts := parts }] ∨
    ∃ s, (apiCycle messages parts net).messages =
      messages ++ [{ role := .user, parts := parts },
                   { role := .model, parts := [.text s] }] := by
  cases net <;> simp only [apiCycle] <;> (repeat' split) <;> simp [List.dropLast_concat]

/-- Each failure kind belongs to exactly one of the five classes. -/
theorem classifiedExactlyOnce_all (k : FailureKind) : classifiedExactlyOnce k := by
  cases k <;> rfl

/-- The payload the submission sends once validation passes. -/
theorem runSubmission_sentPayload (messages : List Turn)
    (apiKey prompt : String) (img : Option ImageFile) (net : NetResult)
    (hkey : apiKey ≠ "")
    (hsome : ¬(prompt = "" ∧ img = none))
    (hmime : ∀ i, img = some i → i.mime ∈ supportedMimeTypes) :
    (runSubmission messages apiKey prompt img net).sentPayload =
      some { contents := messages ++
        [{ role := .user, parts := expectedUserParts prompt img }] } := by
  cases img with
  | none =>
    have hp : prompt ≠ "" := fun h => hsome ⟨h, rfl⟩
    simp [runSubmission, hkey, hp, apiCycle_sentPayload, expectedUserParts]
  | some i =>
    have hm := hmime i rfl
    simp [runSubmission, hkey, hm, apiCycle_sentPayload, expectedUserParts]

/-- `joinTexts` of a list with no text part is the empty string. -/
theorem joinTexts_of_all_noText (ps : List RespPart)
    (h : ∀ p ∈ ps, p = RespPart.noText) : joinTexts ps = "" := by
  induction ps with
  | nil => rfl
  | cons p ps ih =>
    have hp := h p (List.mem_cons_self p ps)
    subst hp
    have := ih fun q hq => h q (List.mem_cons_of_mem _ hq)
    simpa [joinTexts] using this

/-- The API cycle preserves non-emptiness of parts provided the current
user parts are non-empty. -/
theorem apiCycle_parts_nonempty (messages : List Turn) (parts : List ContentPart)
    (net : NetResult)
    (hinv : allPartsNonempty messages) (hp : parts ≠ []) :
    allPartsNonempty (apiCycle messages parts net).messages := by
  rcases apiCycle_messages_cases messages parts net with h | h | ⟨s, h⟩ <;>
    rw [allPartsNonempty, h]
  · exact hinv
  · intro t ht
    rcases List.mem_append.1 ht with h1 | h1
    · exact hinv t h1
    · simp at h1; subst h1; exact hp
  · intro t ht
    rcases List.mem_append.1 ht with h1 | h1
    · exact hinv t h1
    · simp at h1
      rcases h1 with rfl | rfl
      · exact hp
      · simp

/-- Either the submission is rejected with the history untouched, or it
runs the API cycle on a non-empty current-user parts list. -/
theorem runSubmission_shape (messages : List Turn) (apiKey prompt : String)
    (img : Option ImageFile) (net : NetResult) :
    (runSubmission messages apiKey prompt img net).messages = messages ∨
    ∃ parts, parts ≠ [] ∧
      runSubmission messages apiKey prompt img net = apiCycle messages parts net := by
  by_cases hkey : apiKey = ""
  · left; simp [runSubmission, hkey]
  · cases img with
    | none =>
      by_cases hp : prompt = ""
      · left; simp [runSubmission, hkey, hp]
      · right
        refine ⟨if prompt = "" then [] else [.text prompt], by simp [hp], ?_⟩
        simp [runSubmission, hkey, hp]
    | some i =>
      by_cases hm : i.mime ∈ supportedMimeTypes
      · right
        refine ⟨(if prompt = "" then [] else [.text prompt]) ++
          [.inlineData i.mime (b64encode i.bytes)], by simp, ?_⟩
        simp [runSubmission, hkey, hm]
      · left; simp [runSubmission, hkey, hm]

/-- Appending a user/model pair preserves the alternating-roles shape. -/
theorem alternatingHistory_append_pair (l : List Turn)
    (pu pm : List ContentPart) (h : alternatingHistory l) :
    alternatingHistory
      (l ++ [{ role := .user, parts := pu }, { role := .model, parts := pm }]) := by
  obtain ⟨heven, hrole⟩ := h
  constructor
  · simp only [List.length_append, List.length_cons, List.length_nil]
    omega
  · intro i hi
    rw [List.map_append]
    have hlen : (l.map Turn.role).length = l.length := List.length_map _ _
    by_cases hlt : i < l.length
    · rw [List.getElem?_append_left (by omega)]
      exact hrole i hlt
    · rw [List.getElem?_append_right (by omega)]
      simp only [List.length_append, List.length_cons, List.length_nil] at hi
      have hcase : i = l.length ∨ i = l.length + 1 := by omega
      rcases hcase with rfl | rfl
      · simp [hlen, heven]
      · have h1 : (l.length + 1) % 2 ≠ 0 := by omega
        simp [hlen, h1]

/-- When the API cycle does not die of an uncaught exception, it
preserves the alternating-roles shape of the history. -/
theorem apiCycle_alternating (messages : List Turn) (parts : List ContentPart)
    (net : NetResult)
    (hinv : alternatingHistory messages)
    (hok : (apiCycle messages parts net).crashed = false) :
    alternatingHistory (apiCycle messages parts net).messages := by
  rcases net with _ | _ | ⟨status, body⟩ | d
  · simpa [apiCycle, List.dropLast_concat] using hinv
  · simpa [apiCycle, List.dropLast_concat] using hinv
  · by_cases hs : isHttpErrorStatus status
    · rcases body with r | raw
      · simpa [apiCycle, hs, List.dropLast_concat] using hinv
      · exfalso
        simp [apiCycle, hs] at hok
    · rcases body with r | raw
      · rcases hcand : r.candidates with _ | cl
        · simpa [apiCycle, hs, hcand, List.dropLast_concat] using hinv
        · rcases cl with _ | ⟨c, cs⟩
          · simpa [apiCycle, hs, hcand, List.dropLast_concat] using hinv
          · rcases hco : c.content with _ | co
            · simpa [apiCycle, hs, hcand, hco, List.dropLast_concat] using hinv
            · rcases hps : co.parts with _ | ps
              · simpa [apiCycle, hs, hcand, hco, hps, List.dropLast_concat] using hinv
              · have hpair := alternatingHistory_append_pair messages parts
                  [.text (joinTexts ps)] hinv
                simpa [apiCycle, hs, hcand, hco, hps] using hpair
      · simpa [apiCycle, hs, List.dropLast_concat] using hinv
  · simpa [apiCycle, List.dropLast_concat] using hinv

/-! ## The claims -/

/-- C1: the claim says every classified failure removes the just-appended
user turn, restoring the history length.  The code violates it: on an
HTTP-error status whose body is not JSON, the `HTTPError` handler raises
inside `e.response.json()` before reaching `messages.pop()`, so the
orphaned user turn stays in history (length 1 after starting from 0). -/
theorem C1_httpError_nonJson_skips_rollback :
    (runSubmission [] "key" "Hello" none
        (.response 502 (.notJson "Bad Gateway"))).messages
      = [{ role := .user, parts := [.text "Hello"] }] ∧
    (runSubmission [] "key" "Hello" none
        (.response 502 (.notJson "Bad Gateway"))).outcome
      = .failure (.httpError 502 (.notJson "Bad Gateway")) ∧
    (runSubmission [] "key" "Hello" none
        (.response 502 (.notJson "Bad Gateway"))).crashed = true := by
  decide

/-- C2: every failing request/response cycle reports a failure that falls
into exactly one of the five classes Timeout, ConnectionFailure,
HttpError, MalformedResponse, Unexpected; no failure escapes
unclassified. -/
theorem C2_failure_classified_exactly_one (messages : List Turn)
    (parts : List ContentPart) (net : NetResult) :
    (∃ s, (apiCycle messages parts net).outcome = Outcome.success s) ∨
    (∃ k, (apiCycle messages parts net).outcome = Outcome.failure k ∧
      classifiedExactlyOnce k) := by
  cases net <;> simp only [apiCycle] <;> (repeat' split) <;>
    first
      | (left; exact ⟨_, rfl⟩)
      | (right; exact ⟨_, rfl, classifiedExactlyOnce_all _⟩)

/-- C3: on an HTTP-success response whose body has at least one candidate
with content parts, the committed model turn carries exactly the
concatenation (in order, no separator) of the text parts of the first
candidate, non-text parts skipped. -/
theorem C3_reply_is_joined_text_parts (messages : List Turn)
    (parts : List ContentPart) (status : Nat) (r : RespBody)
    (c : Candidate) (cs : List Candidate) (co : ContentObj) (ps : List RespPart)
    (hstatus : isHttpErrorStatus status = false)
    (hc : r.candidates = some (c :: cs))
    (hco : c.content = some co) (hps : co.parts = some ps) :
    (apiCycle messages parts (.response status (.json r))).outcome
      = .success (joinTexts ps) ∧
    (apiCycle messages parts (.response status (.json r))).messages
      = messages ++ [{ role := .user, parts := parts },
                     { role := .model, parts := [.text (joinTexts ps)] }] := by
  simp [apiCycle, hstatus, hc, hco, hps]

theorem C3_witness :
    isHttpErrorStatus 200 = false ∧
    (apiCycle [] [.text "hi"]
        (.response 200
          (.json ⟨some [⟨some ⟨some [.withText "Hel", .noText, .withText "lo"]⟩⟩]⟩))).outcome
      = .success "Hello" := by
  refine ⟨by decide, ?_⟩
  have h := (C3_reply_is_joined_text_parts [] [.text "hi"] 200
      ⟨some [⟨some ⟨some [.withText "Hel", .noText, .withText "lo"]⟩⟩]⟩
      ⟨some ⟨some [.withText "Hel", .noText, .withText "lo"]⟩⟩ []
      ⟨some [.withText "Hel", .noText, .withText "lo"]⟩
      [.withText "Hel", .noText, .withText "lo"]
      (by decide) rfl rfl rfl).1
  simpa [joinTexts] using h

/-- C4: the wire payload is `{contents: history}` with every prior turn
unchanged and in order, followed by the current user turn whose text part
is `{text: ...}` and whose image part is
`{inlineData: {mimeType, data: base64(bytes)}}`. -/
theorem C4_payload_is_full_history (messages : List Turn)
    (apiKey prompt : String) (img : Option ImageFile) (net : NetResult)
    (hkey : apiKey ≠ "")
    (hsome : ¬(prompt = "" ∧ img = none))
    (hmime : ∀ i, img = some i → i.mime ∈ supportedMimeTypes) :
    (runSubmission messages apiKey prompt img net).sentPayload =
      some { contents := messages ++
        [{ role := .user, parts := expectedUserParts prompt img }] } :=
  runSubmission_sentPayload messages apiKey prompt img net hkey hsome hmime

theorem C4_witness :
    ("key" ≠ "" ∧
      ¬(("see" : String) = "" ∧ some (⟨"image/png", [1, 2, 3]⟩ : ImageFile) = none)) ∧
    (runSubmission [{ role := .user, parts := [.text "a"] },
                    { role := .model, parts := [.text "b"] }]
        "key" "see" (some ⟨"image/png", [1, 2, 3]⟩) .timeout).sentPayload =
      some { contents :=
        [{ role := .user, parts := [.text "a"] },
         { role := .model, parts := [.text "b"] },
         { role := .user, parts := [.text "see", .inlineData "image/png" "AQID"] }] } := by
  refine ⟨⟨by decide, by decide⟩, ?_⟩
  have h := C4_payload_is_full_history
    [{ role := .user, parts := [.text "a"] }, { role := .model, parts := [.text "b"] }]
    "key" "see" (some ⟨"image/png", [1, 2, 3]⟩) .timeout
    (by decide) (by decide) (by intro i hi; cases hi; decide)
  simpa [expectedUserParts, b64encode, b64Chunks, b64Char, base64Alphabet] using h

/-- C5: a submission with empty prompt and no image is rejected before
any network call and leaves the history unchanged. -/
theorem C5_empty_submission_rejected_before_network
    (messages : List Turn) (apiKey : String) (net : NetResult) :
    (runSubmission messages apiKey "" none net).networkCalled = false ∧
    (runSubmission messages apiKey "" none net).messages = messages ∧
    ∃ e, (runSubmission messages apiKey "" none net).outcome = .rejected e := by
  by_cases h : apiKey = "" <;> simp [runSubmission, h]

/-- C6: on a valid submission exactly one user turn is appended before
the API call, and its parts are ordered text part first (when a prompt is
given) then image part (when an image is given). -/
theorem C6_user_turn_text_then_image (messages : List Turn)
    (apiKey prompt : String) (img : Option ImageFile) (net : NetResult)
    (hkey : apiKey ≠ "")
    (hsome : ¬(prompt = "" ∧ img = none))
    (hmime : ∀ i, img = some i → i.mime ∈ supportedMimeTypes) :
    ∃ p : Payload, (runSubmission messages apiKey prompt img net).sentPayload = some p ∧
      p.contents.dropLast = messages ∧
      p.contents.getLast? =
        some { role := Role.user, parts := expectedUserParts prompt img } := by
  refine ⟨_, runSubmission_sentPayload messages apiKey prompt img net hkey hsome hmime,
    ?_, ?_⟩
  · simp [List.dropLast_concat]
  · simp [List.getLast?_concat]

theorem C6_witness :
    ("key" ≠ "" ∧ ¬(("Hello" : String) = "" ∧ (none : Option ImageFile) = none)) ∧
    ((runSubmission [] "key" "Hello" none .timeout).sentPayload.map
        fun p => (p.contents.dropLast, p.contents.getLast?))
      = some ([], some { role := Role.user, parts := [ContentPart.text "Hello"] }) := by
  refine ⟨⟨by decide, by simp⟩, ?_⟩
  obtain ⟨p, hp, hdrop, hlast⟩ := C6_user_turn_text_then_image [] "key" "Hello" none .timeout
    (by decide) (by simp) (by intro i hi; cases hi)
  rw [hp]
  simp [hdrop, hlast, expectedUserParts]

/-- C7: a submission with credential set and an image of an unsupported
mime type is rejected with the unsupported-format error before any
network call, leaving the history unchanged. -/
theorem C7_unsupported_mime_rejected (messages : List Turn) (apiKey prompt : String)
    (img : ImageFile) (net : NetResult)
    (hkey : apiKey ≠ "") (hmime : img.mime ∉ supportedMimeTypes) :
    (runSubmission messages apiKey prompt (some img) net).outcome
      = .rejected .unsupportedImageFormat ∧
    (runSubmission messages apiKey prompt (some img) net).networkCalled = false ∧
    (runSubmission messages apiKey prompt (some img) net).messages = messages := by
  simp [runSubmission, hkey, hmime]

theorem C7_witness :
    "image/gif" ∉ supportedMimeTypes ∧
    (runSubmission [] "key" "look" (some ⟨"image/gif", [1, 2, 3]⟩)
        (.response 200 (.json ⟨none⟩))).outcome = .rejected .unsupportedImageFormat := by
  refine ⟨by decide, ?_⟩
  exact (C7_unsupported_mime_rejected [] "key" "look" ⟨"image/gif", [1, 2, 3]⟩
    (.response 200 (.json ⟨none⟩)) (by decide) (by decide)).1

/-- C8: every turn committed to history has a non-empty parts sequence:
the invariant is preserved by every submission. -/
theorem C8_committed_turns_nonempty (messages : List Turn) (apiKey prompt : String)
    (img : Option ImageFile) (net : NetResult)
    (hinv : allPartsNonempty messages) :
    allPartsNonempty (runSubmission messages apiKey prompt img net).messages := by
  rcases runSubmission_shape messages apiKey prompt img net with h | ⟨parts, hp, h⟩
  · rw [allPartsNonempty, h]; exact hinv
  · rw [h]; exact apiCycle_parts_nonempty messages parts net hinv hp

theorem C8_witness :
    allPartsNonempty [{ role := .user, parts := [.text "a"] },
                      { role := .model, parts := [.text "b"] }] ∧
    allPartsNonempty (runSubmission
        [{ role := .user, parts := [.text "a"] },
         { role := .model, parts := [.text "b"] }]
        "key" "next" none
        (.response 200 (.json ⟨some [⟨some ⟨some [.withText "ok"]⟩⟩]⟩))).messages := by
  exact ⟨by decide, C8_committed_turns_nonempty _ "key" "next" none _ (by decide)⟩

/-- C9, as stated, is false of the code: a crashing `HTTPError` cycle
(the rollback bug of C1) leaves an orphaned user turn, and the next
submission then completes normally yet ends with the history
`[user "Hello", user "Again", model "Hi"]` — odd length, with a user
turn at an odd index — so a fully completed cycle can leave a
non-alternating history. -/
theorem C9_counterexample :
    (runSubmission
        (runSubmission [] "key" "Hello" none
          (.response 502 (.notJson "Bad Gateway"))).messages
        "key" "Again" none
        (.response 200 (.json ⟨some [⟨some ⟨some [.withText "Hi"]⟩⟩]⟩))).crashed
      = false ∧
    (runSubmission
        (runSubmission [] "key" "Hello" none
          (.response 502 (.notJson "Bad Gateway"))).messages
        "key" "Again" none
        (.response 200 (.json ⟨some [⟨some ⟨some [.withText "Hi"]⟩⟩]⟩))).outcome
      = .success "Hi" ∧
    (runSubmission
        (runSubmission [] "key" "Hello" none
          (.response 502 (.notJson "Bad Gateway"))).messages
        "key" "Again" none
        (.response 200 (.json ⟨some [⟨some ⟨some [.withText "Hi"]⟩⟩]⟩))).messages
      = [{ role := .user, parts := [.text "Hello"] },
         { role := .user, parts := [.text "Again"] },
         { role := .model, parts := [.text "Hi"] }] ∧
    ¬alternatingHistory (runSubmission
        (runSubmission [] "key" "Hello" none
          (.response 502 (.notJson "Bad Gateway"))).messages
        "key" "Again" none
        (.response 200 (.json ⟨some [⟨some ⟨some [.withText "Hi"]⟩⟩]⟩))).messages := by
  decide

/-- C9, amended: a submission cycle that runs to completion preserves the
alternating shape — when the history before the submission has even
length and alternates roles (user at even indices, model at odd ones), it
still does afterwards.  The unamended claim fails only on histories
already corrupted by a crashed earlier cycle. -/
theorem C9_history_even_and_alternating (messages : List Turn)
    (apiKey prompt : String) (img : Option ImageFile) (net : NetResult)
    (hinv : alternatingHistory messages)
    (hok : (runSubmission messages apiKey prompt img net).crashed = false) :
    alternatingHistory (runSubmission messages apiKey prompt img net).messages := by
  rcases runSubmission_shape messages apiKey prompt img net with h | ⟨parts, hp, h⟩
  · rw [alternatingHistory, h]
    exact hinv
  · rw [h]
    rw [h] at hok
    exact apiCycle_alternating messages parts net hinv hok

theorem C9_witness :
    alternatingHistory [] ∧
    (runSubmission [] "key" "Hello" none
        (.response 200 (.json ⟨some [⟨some ⟨some [.withText "Hi"]⟩⟩]⟩))).crashed = false ∧
    alternatingHistory (runSubmission [] "key" "Hello" none
        (.response 200 (.json ⟨some [⟨some ⟨some [.withText "Hi"]⟩⟩]⟩))).messages := by
  have hnil : alternatingHistory [] := ⟨rfl, fun i hi => absurd hi (by simp)⟩
  refine ⟨hnil, by decide, ?_⟩
  exact C9_history_even_and_alternating [] "key" "Hello" none
    (.response 200 (.json ⟨some [⟨some ⟨some [.withText "Hi"]⟩⟩]⟩))
    hnil (by decide)

/-- C10: an HTTP-success body whose first candidate has content parts but
none with a text field is still treated as success: a model turn with the
single part `{text: ""}` is committed and no rollback happens. -/
theorem C10_no_text_parts_commits_empty_reply (messages : List Turn)
    (parts : List ContentPart) (status : Nat) (r : RespBody)
    (c : Candidate) (cs : List Candidate) (co : ContentObj) (ps : List RespPart)
    (hstatus : isHttpErrorStatus status = false)
    (hc : r.candidates = some (c :: cs))
    (hco : c.content = some co) (hps : co.parts = some ps)
    (hnotext : ∀ p ∈ ps, p = RespPart.noText) :
    (apiCycle messages parts (.response status (.json r))).outcome = .success "" ∧
    (apiCycle messages parts (.response status (.json r))).messages
      = messages ++ [{ role := .user, parts := parts },
                     { role := .model, parts := [.text ""] }] ∧
    (apiCycle messages parts (.response status (.json r))).crashed = false := by
  have hj := joinTexts_of_all_noText ps hnotext
  simp [apiCycle, hstatus, hc, hco, hps, hj]

theorem C10_witness :
    isHttpErrorStatus 200 = false ∧
    (apiCycle [] [.text "hi"]
        (.response 200 (.json ⟨some [⟨some ⟨some [.noText]⟩⟩]⟩))).outcome
      = .success "" := by
  exact ⟨by decide,
    (C10_no_text_parts_commits_empty_reply [] [.text "hi"] 200
      ⟨some [⟨some ⟨some [.noText]⟩⟩]⟩ ⟨some ⟨some [.noText]⟩⟩ []
      ⟨some [.noText]⟩ [.noText] (by decide) rfl rfl rfl (by decide)).1⟩

end GeminiChatApp
